import Mathlib

/-!
Verification of the Nistica WSS UART driver
(src/nistica-wss/nistica_wss_library.c and nistica_wss_library.h).

The C file builds fixed command frames as byte-array literals, transmits them with
length `strlen(packet_to_transmit)`, receives a response buffer (zero-initialised
char[255]/char[110]), and then validates the response in a fixed order
(message-id echo, result byte, sometimes a length byte) before extracting data.
Bytes are modelled as `Nat`, frames as `List Nat`, the two transport calls as a
`Transport` record of their statuses and the received buffer, and each accessor's
observable behaviour as an `Outcome`: the C return status, the reported
reason, the final value behind the caller's out pointer, and the trace of
transmit/receive/print events.
-/

namespace NisticaWss

/-- Command code for reads, `#define READ_CMD 0x02` (nistica_wss_library.h). -/
def READ_CMD : Nat := 0x02

/-- Command code for single-object writes, `#define WRITE_CMD 0x01` (header). -/
def WRITE_CMD : Nat := 0x01

/-- Command code for array writes, `#define ARRAY_WRITE 0x10` (header). -/
def ARRAY_WRITE : Nat := 0x10

/-- Transport success status, `#define SUCCESS 0` (header). -/
def SUCCESS : Int := 0

/-- Failure status returned by every accessor. The constant is not defined under
src; every function doc comment documents the failure return value as -1. -/
def FAILURE : Int := -1

/-- Fixed transmit frame of get_vendor_name_of_nistica_wss_module (line 86). -/
def get_vendor_name_packet : List Nat :=
  [0xdd, 0x01, 0x01, 0x05, READ_CMD, 0x06, 0x01, 0x00, 0x01, 0xdd, 0x02]

/-- Fixed transmit frame of get_minimum_frequency_bound_of_nistica_wss_module (line 153). -/
def get_minimum_frequency_bound_packet : List Nat :=
  [0xdd, 0x01, 0x19, 0x05, READ_CMD, 0x80, 0x04, 0x00, 0x9A, 0xdd, 0x02]

/-- Fixed transmit frame of get_maximum_frequency_bound_of_nistica_wss_module (line 228). -/
def get_maximum_frequency_bound_packet : List Nat :=
  [0xdd, 0x01, 0x19, 0x05, READ_CMD, 0x80, 0x05, 0x00, 0x9B, 0xdd, 0x02]

/-- Fixed transmit frame of get_minimum_channel_bandwidth_of_nistica_wss_module (line 305). -/
def get_minimum_channel_bandwidth_packet : List Nat :=
  [0xdd, 0x01, 0x19, 0x05, READ_CMD, 0x80, 0x06, 0x00, 0x9C, 0xdd, 0x02]

/-- Fixed transmit frame of set_cold_boot_mode_for_nistica_wss_module (line 1127). -/
def set_cold_boot_mode_packet : List Nat :=
  [0xdd, 0x01, 0x03, 0x05, WRITE_CMD, 0x91, 0x01, 0x00, 0x00, 0x01, 0x97, 0xdd, 0x02]

/-- Fixed transmit frame of set_warm_boot_mode_for_nistica_wss_module (line 1200). -/
def set_warm_boot_mode_packet : List Nat :=
  [0xdd, 0x01, 0x03, 0x05, WRITE_CMD, 0x91, 0x01, 0x00, 0x00, 0x02, 0x94, 0xdd, 0x02]

/-- Fixed transmit frame of set_watchdog_reset_boot_mode_for_nistica_wss_module (line 1273). -/
def set_watchdog_reset_boot_mode_packet : List Nat :=
  [0xdd, 0x01, 0x03, 0x05, WRITE_CMD, 0x91, 0x01, 0x00, 0x00, 0x04, 0x92, 0xdd, 0x02]

/-- Fixed transmit frame of set_hot_boot_mode_for_nistica_wss_module (line 1346). -/
def set_hot_boot_mode_packet : List Nat :=
  [0xdd, 0x01, 0x03, 0x05, WRITE_CMD, 0x91, 0x01, 0x00, 0x00, 0x08, 0x9E, 0xdd, 0x02]

/-- Transmit frame of set_waveplan_of_nistica_wss_module (lines 1449-1455). The
command code constant MULTI_OBJ_WRITE is referenced there but defined nowhere
under src (the spec only says the multi-object write uses a distinct command
code), so it is a parameter here; the six data bytes are the little-endian
in-memory bytes of the channel count and the two converted 3.125-multiples. -/
def set_waveplan_packet (multiObjWrite nChLo nChHi cfLo cfHi bwLo bwHi : Nat) : List Nat :=
  [0xdd, 0x01, 0x01, 0x1B, multiObjWrite,
   0xA3, 0x01, 0x01, nChLo, nChHi,
   0xA0, 0x01, 0x01, cfLo, cfHi,
   0xA1, 0x01, 0x01, bwLo, bwHi,
   0xA2, 0x01, 0x01, 0x00, 0x01,
   0xA4, 0x01, 0x01, 0x00, 0x01,
   0x73, 0xdd, 0x02]

/-- Transmit frame of set_channel_port_of_nistica_wss_module (line 1489). The
source leaves the checksum slot as the placeholder string literal
"calcludate the checksum"; that slot is modelled as an unconstrained byte
`chk`. Multi-byte arguments stored into single char elements are reduced
mod 256, as the C narrowing conversions do. -/
def set_channel_port_packet (startCh endCh portId chk : Nat) : List Nat :=
  [0xdd, 0x01, 0x20, (endCh + 5) % 256, ARRAY_WRITE,
   0xAA, startCh % 256, 0x01, endCh % 256, portId % 256, chk % 256, 0xdd, 0x02]

/-- All fixed (argument-free) transmit frame literals in the C file, in source
order: lines 86, 153, 228, 305, 378, 450, 523, 596, 669, 742, 816, 900, 975,
1054, 1127, 1200, 1273, 1346, 1571, 1646, 1722, 1798, 1874, 1950, 2025, 2100. -/
def fixedTransmitPackets : List (List Nat) :=
  [get_vendor_name_packet,
   get_minimum_frequency_bound_packet,
   get_maximum_frequency_bound_packet,
   get_minimum_channel_bandwidth_packet,
   [0xdd, 0x01, 0x19, 0x05, READ_CMD, 0x80, 0x0F, 0x00, 0x91, 0xdd, 0x02],
   [0xdd, 0x01, 0x19, 0x05, READ_CMD, 0x80, 0x10, 0x00, 0x8E, 0xdd, 0x02],
   [0xdd, 0x01, 0x19, 0x05, READ_CMD, 0x80, 0x12, 0x00, 0x8E, 0xdd, 0x02],
   [0xdd, 0x01, 0x10, 0x05, READ_CMD, 0x80, 0x02, 0x00, 0x95, 0xdd, 0x02],
   [0xdd, 0x01, 0x11, 0x05, READ_CMD, 0x80, 0x0E, 0x00, 0x98, 0xdd, 0x02],
   [0xdd, 0x01, 0x12, 0x05, READ_CMD, 0x80, 0x11, 0x00, 0x84, 0xdd, 0x02],
   [0xdd, 0x01, 0x13, 0x05, READ_CMD, 0x80, 0x0A, 0x00, 0x9E, 0xdd, 0x02],
   [0xdd, 0x01, 0x01, 0x05, READ_CMD, 0x03, 0x01, 0x00, 0x04, 0xdd, 0x02],
   [0xdd, 0x01, 0x02, 0x05, READ_CMD, 0x04, 0x01, 0x00, 0x00, 0xdd, 0x02],
   [0xdd, 0x01, 0x03, 0x05, READ_CMD, 0x91, 0x01, 0x00, 0x94, 0xdd, 0x02],
   set_cold_boot_mode_packet,
   set_warm_boot_mode_packet,
   set_watchdog_reset_boot_mode_packet,
   set_hot_boot_mode_packet,
   [0xdd, 0x01, 0x01, 0x05, READ_CMD, 0x0b, 0x01, 0x00, 0x0f, 0xdd, 0x02],
   [0xdd, 0x01, 0x01, 0x05, READ_CMD, 0x0b, 0x01, 0x00, 0x0f, 0xdd, 0x02],
   [0xdd, 0x01, 0x01, 0x05, READ_CMD, 0x0b, 0x01, 0x00, 0x0f, 0xdd, 0x02],
   [0xdd, 0x01, 0x01, 0x05, READ_CMD, 0x0b, 0x01, 0x00, 0x0f, 0xdd, 0x02],
   [0xdd, 0x01, 0x01, 0x05, READ_CMD, 0x0b, 0x01, 0x00, 0x0f, 0xdd, 0x02],
   [0xdd, 0x01, 0x01, 0x05, READ_CMD, 0x92, 0x01, 0x00, 0x96, 0xdd, 0x02],
   [0xdd, 0x01, 0x01, 0x05, READ_CMD, 0x92, 0x02, 0x00, 0x95, 0xdd, 0x02],
   [0xdd, 0x01, 0x01, 0x05, READ_CMD, 0x78, 0x01, 0x00, 0x7c, 0xdd, 0x02]]

/-- The bytes actually handed to transmit_packet_via_uart_port: the C code
passes `strlen(packet_to_transmit)` as the length, i.e. the prefix of the
frame before its first 0x00 byte. -/
def sentBytes (p : List Nat) : List Nat := p.takeWhile (fun b => b != 0)

/-- XOR-fold of a list of bytes. -/
def xorFold (l : List Nat) : Nat := l.foldl (fun a b => a ^^^ b) 0

/-- The body of a frame over which the documented checksum is computed: the
bytes from the message id (offset 2) through the last byte before the
checksum byte (the frame ends with checksum, 0xdd, 0x02). -/
def frameBody (p : List Nat) : List Nat := (p.drop 2).take (p.length - 5)

/-- The checksum byte of a frame: the third-from-last byte, just before the
end marker 0xdd 0x02. -/
def checksumByte (p : List Nat) : Nat := p.getD (p.length - 3) 0

/-- The last two bytes of a byte sequence. -/
def lastTwo (p : List Nat) : List Nat := p.drop (p.length - 2)

/-- Byte i of a packet buffer. Reads past the end yield 0, matching the
zero-initialised C receive buffers. -/
def byteAt (p : List Nat) (i : Nat) : Nat := p.getD i 0

/-- Observable events of one accessor call: a transmit of a byte sequence, a
receive, or a printf of an error message to standard output. -/
inductive Event where
  | transmit (bytes : List Nat)
  | receive
  | print
deriving DecidableEq

/-- Whether an event is a transport operation (transmit or receive), as
opposed to console output. -/
def Event.isTransport : Event → Bool
  | .transmit _ => true
  | .receive => true
  | .print => false

/-- The reason an accessor reports for a failure ("Return error with
appropriate error message/reason for failure" in the source), one constructor
per distinct failure site: transmit failure, receive failure, message-id echo
mismatch, non-zero result byte (carrying the device's code), and response
length mismatch (for the accessors that validate the length byte). -/
inductive Err where
  | transmitFailed
  | receiveFailed
  | idMismatch
  | deviceRejected (code : Nat)
  | lenMismatch
deriving DecidableEq

/-- One call's view of the UART transport collaborator: the status returned by
transmit_packet_via_uart_port, the status returned by
receive_packet_via_uart_port, and the bytes it places in the
zero-initialised receive buffer (reads past the received length yield 0,
matching the zero-initialised char array). -/
structure Transport where
  txResult : Int
  rxResult : Int
  rxPacket : List Nat

/-- The observable outcome of one accessor call: the C return status
(SUCCESS or FAILURE), the reported reason, the value behind the caller's
out pointer after the call, and the event trace. -/
structure Outcome (α : Type) where
  status : Int
  result : Except Err α
  finalOut : α
  events : List Event

/-- The response validation every accessor performs, in source order:
message-id echo (request byte 2 against response byte 2), then the result
byte (response byte 4 against SUCCESS), then, for the accessors that check
it, the length byte (response byte 3); only when every check passes is the
data payload interpreted by `extract`. -/
def validateAndExtract {α : Type} (lenCheck : Option Nat) (extract : List Nat → α)
    (req rx : List Nat) : Except Err α :=
  if byteAt rx 2 ≠ byteAt req 2 then .error .idMismatch
  else if byteAt rx 4 ≠ 0 then .error (.deviceRejected (byteAt rx 4))
  else
    match lenCheck with
    | some l => if byteAt rx 3 ≠ l then .error .lenMismatch else .ok (extract rx)
    | none => .ok (extract rx)

/-- The transaction shape shared by every accessor in the C file: transmit the
frame (with strlen-derived length), printf and return FAILURE if the
transmit status is not SUCCESS; receive, printf and return FAILURE if the
receive status is not SUCCESS; otherwise run the response validation and
extraction, writing the out pointer only when it succeeds. -/
def runAccessor {α : Type} (t : Transport) (req : List Nat)
    (validator : List Nat → List Nat → Except Err α) (ptrInit : α) : Outcome α :=
  if t.txResult ≠ SUCCESS then
    ⟨FAILURE, .error .transmitFailed, ptrInit, [.transmit (sentBytes req), .print]⟩
  else if t.rxResult ≠ SUCCESS then
    ⟨FAILURE, .error .receiveFailed, ptrInit, [.transmit (sentBytes req), .receive, .print]⟩
  else
    match validator req t.rxPacket with
    | .ok v => ⟨SUCCESS, .ok v, v, [.transmit (sentBytes req), .receive]⟩
    | .error e => ⟨FAILURE, .error e, ptrInit, [.transmit (sentBytes req), .receive]⟩

/-- Response-data combination used by the two-byte getters: "extract ... from
uart_received_packet_return[5] and uart_received_packet_return[6], OR both
bytes". -/
def orCombine (rx : List Nat) : Nat := byteAt rx 5 ||| byteAt rx 6

/-- Scaling of a raw grid-multiple: "multiply the result by 3.125". -/
def scaleBy3125 (raw : Nat) : ℚ := (raw : ℚ) * (25 / 8)

/-- get_vendor_name_of_nistica_wss_module (lines 75-114): read of object 0x06,
instance 0x01, parameter 0x00; validates MID, RES and LEN (0x6c) and
extracts the vendor-name bytes of the payload starting at offset 5. -/
def get_vendor_name_of_nistica_wss_module (t : Transport) (ptrInit : List Nat) :
    Outcome (List Nat) :=
  runAccessor t get_vendor_name_packet
    (validateAndExtract (some 0x6c) (fun rx => (rx.drop 5).take 6)) ptrInit

/-- get_minimum_frequency_bound_of_nistica_wss_module (lines 151-189):
validates MID and RES, ORs response bytes 5 and 6 and multiplies by 3.125. -/
def get_minimum_frequency_bound_of_nistica_wss_module (t : Transport) (ptrInit : ℚ) :
    Outcome ℚ :=
  runAccessor t get_minimum_frequency_bound_packet
    (validateAndExtract none (fun rx => scaleBy3125 (orCombine rx))) ptrInit

/-- get_minimum_channel_bandwidth_of_nistica_wss_module (lines 303-341):
validates MID and RES, ORs response bytes 5 and 6 and multiplies by 3.125. -/
def get_minimum_channel_bandwidth_of_nistica_wss_module (t : Transport) (ptrInit : ℚ) :
    Outcome ℚ :=
  runAccessor t get_minimum_channel_bandwidth_packet
    (validateAndExtract none (fun rx => scaleBy3125 (orCombine rx))) ptrInit

/-- set_cold_boot_mode_for_nistica_wss_module (lines 1125-1162): write of data
0x01 to object 0x91, instance 0x01, parameter 0x00; validates MID and RES
and, per the pseudo-code "return the boot_mode", yields the two response
data bytes combined. -/
def set_cold_boot_mode_for_nistica_wss_module (t : Transport) (ptrInit : Nat) :
    Outcome Nat :=
  runAccessor t set_cold_boot_mode_packet
    (validateAndExtract none orCombine) ptrInit

/-- set_warm_boot_mode_for_nistica_wss_module (lines 1198-1235): write of data
0x02 to object 0x91, instance 0x01, parameter 0x00. -/
def set_warm_boot_mode_for_nistica_wss_module (t : Transport) (ptrInit : Nat) :
    Outcome Nat :=
  runAccessor t set_warm_boot_mode_packet
    (validateAndExtract none orCombine) ptrInit

/-- set_watchdog_reset_boot_mode_for_nistica_wss_module (lines 1271-1308):
write of data 0x04 to object 0x91, instance 0x01, parameter 0x00. -/
def set_watchdog_reset_boot_mode_for_nistica_wss_module (t : Transport) (ptrInit : Nat) :
    Outcome Nat :=
  runAccessor t set_watchdog_reset_boot_mode_packet
    (validateAndExtract none orCombine) ptrInit

/-- set_hot_boot_mode_for_nistica_wss_module (lines 1344-1381): write of data
0x08 to object 0x91, instance 0x01, parameter 0x00. -/
def set_hot_boot_mode_for_nistica_wss_module (t : Transport) (ptrInit : Nat) :
    Outcome Nat :=
  runAccessor t set_hot_boot_mode_packet
    (validateAndExtract none orCombine) ptrInit

/-- Claim C2: the encoded read request for the vendor-name register (object
0x06, instance 0x01, parameter 0x00, message id 0x01) is exactly the 11-byte
sequence DD 01 01 05 02 06 01 00 01 DD 02, and its checksum byte 0x01 equals
the XOR-fold of the body bytes 01 05 02 06 01 00. -/
theorem vendor_name_read_frame_exact :
    get_vendor_name_packet =
      [0xdd, 0x01, 0x01, 0x05, 0x02, 0x06, 0x01, 0x00, 0x01, 0xdd, 0x02] ∧
    get_vendor_name_packet.length = 11 ∧
    frameBody get_vendor_name_packet = [0x01, 0x05, 0x02, 0x06, 0x01, 0x00] ∧
    checksumByte get_vendor_name_packet = 0x01 ∧
    xorFold (frameBody get_vendor_name_packet) = 0x01 := by
  refine ⟨rfl, rfl, rfl, rfl, rfl⟩

/-- Claim C1 (failing input): the minimum-channel-bandwidth read frame carries
checksum byte 0x9C, but the XOR-fold of its body 19 05 02 80 06 00 — the rule
the function's own doc comment states (SUM = XOR from MID to PAR) — is 0x98;
likewise the cold-boot write frame carries 0x97 while the XOR-fold of its
body through the final data byte is 0x96. -/
theorem checksum_bytes_diverge_from_xor_fold :
    checksumByte get_minimum_channel_bandwidth_packet = 0x9C ∧
    xorFold (frameBody get_minimum_channel_bandwidth_packet) = 0x98 ∧
    checksumByte get_minimum_channel_bandwidth_packet ≠
      xorFold (frameBody get_minimum_channel_bandwidth_packet) ∧
    checksumByte set_cold_boot_mode_packet = 0x97 ∧
    xorFold (frameBody set_cold_boot_mode_packet) = 0x96 ∧
    checksumByte set_cold_boot_mode_packet ≠
      xorFold (frameBody set_cold_boot_mode_packet) := by
  refine ⟨rfl, rfl, by decide, rfl, rfl, by decide⟩

/-- Claim C6 (failing input): every frame literal is constructed with start
marker DD 01 and end marker DD 02, but the length handed to the transport is
strlen of the frame, which stops at the 0x00 parameter byte: for the
vendor-name accessor only the 7 bytes DD 01 01 05 02 06 01 are transmitted,
so the transmitted sequence does not end with the end marker. -/
theorem transmitted_frame_drops_end_marker :
    (fixedTransmitPackets.all
      (fun p => p.take 2 == [0xdd, 0x01] && lastTwo p == [0xdd, 0x02])) = true ∧
    sentBytes get_vendor_name_packet = [0xdd, 0x01, 0x01, 0x05, 0x02, 0x06, 0x01] ∧
    (sentBytes get_vendor_name_packet).length = 7 ∧
    lastTwo (sentBytes get_vendor_name_packet) ≠ [0xdd, 0x02] ∧
    (get_vendor_name_of_nistica_wss_module ⟨SUCCESS, SUCCESS, []⟩ []).events.head? =
      some (.transmit [0xdd, 0x01, 0x01, 0x05, 0x02, 0x06, 0x01]) := by
  refine ⟨by decide, rfl, rfl, by decide, rfl⟩

/-- Claim C7: the four boot-mode write frames are write commands (command byte
WRITE_CMD) addressed to object 0x91, instance 0x01, parameter 0x00, and their
data values are exactly 0x01 (cold), 0x02 (warm), 0x04 (watchdog reset) and
0x08 (hot). -/
theorem boot_mode_write_frames_encode_enum :
    (byteAt set_cold_boot_mode_packet 4 = WRITE_CMD ∧
     byteAt set_cold_boot_mode_packet 5 = 0x91 ∧
     byteAt set_cold_boot_mode_packet 6 = 0x01 ∧
     byteAt set_cold_boot_mode_packet 7 = 0x00 ∧
     byteAt set_cold_boot_mode_packet 8 = 0x00 ∧
     byteAt set_cold_boot_mode_packet 9 = 0x01) ∧
    (byteAt set_warm_boot_mode_packet 4 = WRITE_CMD ∧
     byteAt set_warm_boot_mode_packet 5 = 0x91 ∧
     byteAt set_warm_boot_mode_packet 6 = 0x01 ∧
     byteAt set_warm_boot_mode_packet 7 = 0x00 ∧
     byteAt set_warm_boot_mode_packet 8 = 0x00 ∧
     byteAt set_warm_boot_mode_packet 9 = 0x02) ∧
    (byteAt set_watchdog_reset_boot_mode_packet 4 = WRITE_CMD ∧
     byteAt set_watchdog_reset_boot_mode_packet 5 = 0x91 ∧
     byteAt set_watchdog_reset_boot_mode_packet 6 = 0x01 ∧
     byteAt set_watchdog_reset_boot_mode_packet 7 = 0x00 ∧
     byteAt set_watchdog_reset_boot_mode_packet 8 = 0x00 ∧
     byteAt set_watchdog_reset_boot_mode_packet 9 = 0x04) ∧
    (byteAt set_hot_boot_mode_packet 4 = WRITE_CMD ∧
     byteAt set_hot_boot_mode_packet 5 = 0x91 ∧
     byteAt set_hot_boot_mode_packet 6 = 0x01 ∧
     byteAt set_hot_boot_mode_packet 7 = 0x00 ∧
     byteAt set_hot_boot_mode_packet 8 = 0x00 ∧
     byteAt set_hot_boot_mode_packet 9 = 0x08) := by
  decide

/-- A received response whose echoed message id 0x00 does not match the
request while its result byte is 0x01: used to show the result-byte gate is
not reached when the message-id check fails first. -/
def misroutedRejectRx : List Nat :=
  [0xdd, 0x01, 0x00, 0x04, 0x01, 0xAB, 0xCD, 0x00, 0xdd, 0x02]

/-- Claim C3 (counterexample): a received response whose result byte (offset 4)
is 0x01 but whose echoed message id differs from the request is reported as
idMismatch, not as deviceRejected, because the source validates the message
id before the result byte. -/
theorem nonzero_result_not_always_device_rejected :
    byteAt misroutedRejectRx 4 = 0x01 ∧
    (get_minimum_channel_bandwidth_of_nistica_wss_module
        ⟨SUCCESS, SUCCESS, misroutedRejectRx⟩ 0).result = .error .idMismatch ∧
    Err.idMismatch ≠ Err.deviceRejected 0x01 := by
  refine ⟨rfl, rfl, by decide⟩

/-- Claim C3 (amended): for every accessor (any length check and extraction
function), when both transport calls succeed, the response echoes the
request's message id and the result byte (offset 4) is non-zero, the call
reports the device-rejected error carrying that code, returns FAILURE, and
never interprets any byte of the data payload as a value, for all payload
contents. -/
theorem nonzero_result_rejected_when_mid_matches {α : Type}
    (lenCheck : Option Nat) (extract : List Nat → α)
    (t : Transport) (req : List Nat) (ptrInit : α)
    (htx : t.txResult = SUCCESS) (hrx : t.rxResult = SUCCESS)
    (hmid : byteAt t.rxPacket 2 = byteAt req 2)
    (hres : byteAt t.rxPacket 4 ≠ 0) :
    (runAccessor t req (validateAndExtract lenCheck extract) ptrInit).result
      = .error (.deviceRejected (byteAt t.rxPacket 4)) ∧
    (runAccessor t req (validateAndExtract lenCheck extract) ptrInit).status = FAILURE ∧
    (runAccessor t req (validateAndExtract lenCheck extract) ptrInit).finalOut = ptrInit := by
  have h1 : ¬ t.txResult ≠ SUCCESS := by simp [htx]
  have h2 : ¬ t.rxResult ≠ SUCCESS := by simp [hrx]
  have hv : validateAndExtract lenCheck extract req t.rxPacket
      = .error (.deviceRejected (byteAt t.rxPacket 4)) := by
    simp [validateAndExtract, hmid, hres]
  simp [runAccessor, h1, h2, hv]

/-- Witness for the amended C3 theorem: the minimum-channel-bandwidth accessor
given a well-routed response with result byte 0x07 reports deviceRejected 7. -/
theorem nonzero_result_rejected_witness :
    (get_minimum_channel_bandwidth_of_nistica_wss_module
        ⟨SUCCESS, SUCCESS, [0xdd, 0x01, 0x19, 0x03, 0x07, 0x12, 0x34, 0x00, 0xdd, 0x02]⟩ 0).result
      = .error (.deviceRejected 0x07) :=
  (nonzero_result_rejected_when_mid_matches none (fun rx => scaleBy3125 (orCombine rx))
    ⟨SUCCESS, SUCCESS, [0xdd, 0x01, 0x19, 0x03, 0x07, 0x12, 0x34, 0x00, 0xdd, 0x02]⟩
    get_minimum_channel_bandwidth_packet 0 rfl rfl rfl (by decide)).1

/-- Claim C4: for every accessor, when both transport calls succeed but the
message id echoed at offset 2 of the response differs from the request's
message id, the call reports the id-mismatch error, returns FAILURE, and
never returns a value extracted from that response. -/
theorem mid_mismatch_yields_id_mismatch {α : Type}
    (lenCheck : Option Nat) (extract : List Nat → α)
    (t : Transport) (req : List Nat) (ptrInit : α)
    (htx : t.txResult = SUCCESS) (hrx : t.rxResult = SUCCESS)
    (hmid : byteAt t.rxPacket 2 ≠ byteAt req 2) :
    (runAccessor t req (validateAndExtract lenCheck extract) ptrInit).result
      = .error .idMismatch ∧
    (runAccessor t req (validateAndExtract lenCheck extract) ptrInit).status = FAILURE ∧
    (runAccessor t req (validateAndExtract lenCheck extract) ptrInit).finalOut = ptrInit := by
  have h1 : ¬ t.txResult ≠ SUCCESS := by simp [htx]
  have h2 : ¬ t.rxResult ≠ SUCCESS := by simp [hrx]
  have hv : validateAndExtract lenCheck extract req t.rxPacket = .error .idMismatch := by
    simp [validateAndExtract, hmid]
  simp [runAccessor, h1, h2, hv]

/-- Witness for the C4 theorem: the vendor-name accessor given a response that
echoes message id 0x02 instead of the request's 0x01 reports idMismatch. -/
theorem mid_mismatch_witness :
    (get_vendor_name_of_nistica_wss_module
        ⟨SUCCESS, SUCCESS, [0xdd, 0x01, 0x02, 0x6c, 0x00, 0x4E, 0x69, 0x73, 0x74, 0x69, 0x63, 0x61, 0x00, 0xdd, 0x02]⟩ []).result
      = .error .idMismatch :=
  (mid_mismatch_yields_id_mismatch (some 0x6c) (fun rx => (rx.drop 5).take 6)
    ⟨SUCCESS, SUCCESS, [0xdd, 0x01, 0x02, 0x6c, 0x00, 0x4E, 0x69, 0x73, 0x74, 0x69, 0x63, 0x61, 0x00, 0xdd, 0x02]⟩
    get_vendor_name_packet [] rfl rfl (by decide)).1

/-- Claim C5: when the minimum-frequency-bound accessor receives, over a
successful transport, a response echoing its message id 0x19 with result
byte 0 and data bytes 0x60 and 0x00 at offsets 5 and 6, the OR-combination
of the two bytes is the raw value 96, and the accessor returns
96 times 3.125 = 300 as the minimum frequency bound. -/
theorem min_frequency_bound_decodes_96_to_300
    (t : Transport) (ptrInit : ℚ)
    (htx : t.txResult = SUCCESS) (hrx : t.rxResult = SUCCESS)
    (hmid : byteAt t.rxPacket 2 = 0x19)
    (hres : byteAt t.rxPacket 4 = 0)
    (h5 : byteAt t.rxPacket 5 = 0x60)
    (h6 : byteAt t.rxPacket 6 = 0x00) :
    orCombine t.rxPacket = 96 ∧
    (get_minimum_frequency_bound_of_nistica_wss_module t ptrInit).result = .ok 300 ∧
    (get_minimum_frequency_bound_of_nistica_wss_module t ptrInit).finalOut = 300 := by
  have h1 : ¬ t.txResult ≠ SUCCESS := by simp [htx]
  have h2 : ¬ t.rxResult ≠ SUCCESS := by simp [hrx]
  have hor : orCombine t.rxPacket = 96 := by
    simp [orCombine, h5, h6]
  have hscale : scaleBy3125 (orCombine t.rxPacket) = 300 := by
    rw [hor]; norm_num [scaleBy3125]
  have hreq : byteAt get_minimum_frequency_bound_packet 2 = 0x19 := rfl
  have hv : validateAndExtract none (fun rx => scaleBy3125 (orCombine rx))
      get_minimum_frequency_bound_packet t.rxPacket = .ok 300 := by
    simp [validateAndExtract, hreq, hmid, hres, hscale]
  exact ⟨hor, by
    simp [get_minimum_frequency_bound_of_nistica_wss_module, runAccessor, h1, h2, hv], by
    simp [get_minimum_frequency_bound_of_nistica_wss_module, runAccessor, h1, h2, hv]⟩

/-- Witness for the C5 theorem at the concrete scenario response. -/
theorem min_frequency_bound_witness :
    (get_minimum_frequency_bound_of_nistica_wss_module
        ⟨SUCCESS, SUCCESS, [0xdd, 0x01, 0x19, 0x03, 0x00, 0x60, 0x00, 0x7A, 0xdd, 0x02]⟩ 0).result
      = .ok 300 :=
  (min_frequency_bound_decodes_96_to_300
    ⟨SUCCESS, SUCCESS, [0xdd, 0x01, 0x19, 0x03, 0x00, 0x60, 0x00, 0x7A, 0xdd, 0x02]⟩
    0 rfl rfl rfl rfl rfl rfl).2.1

/-- Claim C8 (counterexample): with a failing transmit status the vendor-name
accessor emits a printf error message, so the core does print on an error
path. -/
theorem accessor_prints_on_transmit_failure :
    Event.print ∈ (get_vendor_name_of_nistica_wss_module ⟨FAILURE, SUCCESS, []⟩ []).events := by
  decide

/-- Claim C8 (amended): an accessor prints exactly on transport failures —
its trace contains a printf event precisely when the transmit or the receive
status is not SUCCESS — and those failures are still reported to the caller
through the returned error value; validation failures and successes print
nothing. -/
theorem print_exactly_on_transport_failure {α : Type}
    (t : Transport) (req : List Nat)
    (validator : List Nat → List Nat → Except Err α) (ptrInit : α) :
    (Event.print ∈ (runAccessor t req validator ptrInit).events ↔
      (t.txResult ≠ SUCCESS ∨ t.rxResult ≠ SUCCESS)) ∧
    (t.txResult ≠ SUCCESS →
      (runAccessor t req validator ptrInit).result = .error .transmitFailed) ∧
    (t.txResult = SUCCESS → t.rxResult ≠ SUCCESS →
      (runAccessor t req validator ptrInit).result = .error .receiveFailed) := by
  by_cases h1 : t.txResult ≠ SUCCESS
  · simp [runAccessor, h1]
  · by_cases h2 : t.rxResult ≠ SUCCESS
    · simp [runAccessor, h1, h2]
    · cases hv : validator req t.rxPacket <;> simp [runAccessor, h1, h2, hv]

/-- Witness for the amended C8 theorem: no print on a fully successful call,
and the transmit-failure path reports transmitFailed. -/
theorem print_on_transport_failure_witness :
    Event.print ∉ (get_vendor_name_of_nistica_wss_module ⟨SUCCESS, SUCCESS, []⟩ []).events ∧
    (get_vendor_name_of_nistica_wss_module ⟨FAILURE, SUCCESS, []⟩ []).result
      = .error .transmitFailed := by
  constructor
  · intro hmem
    rcases (print_exactly_on_transport_failure ⟨SUCCESS, SUCCESS, ([] : List Nat)⟩
        get_vendor_name_packet
        (validateAndExtract (some 0x6c) (fun rx => (rx.drop 5).take 6)) []).1.mp hmem with h | h <;>
      exact h rfl
  · exact (print_exactly_on_transport_failure ⟨FAILURE, SUCCESS, ([] : List Nat)⟩
      get_vendor_name_packet
      (validateAndExtract (some 0x6c) (fun rx => (rx.drop 5).take 6)) []).2.1 (by decide)

/-- Claim C9: every accessor call's transport trace is exactly one transmit of
the request bytes, followed by at most one receive — never a retransmit and
never a second receive, on every path including the error paths. -/
theorem single_exchange_per_call {α : Type}
    (t : Transport) (req : List Nat)
    (validator : List Nat → List Nat → Except Err α) (ptrInit : α) :
    (runAccessor t req validator ptrInit).events.filter Event.isTransport
        = [.transmit (sentBytes req)] ∨
    (runAccessor t req validator ptrInit).events.filter Event.isTransport
        = [.transmit (sentBytes req), .receive] := by
  by_cases h1 : t.txResult ≠ SUCCESS
  · left; simp [runAccessor, h1, Event.isTransport, List.filter]
  · by_cases h2 : t.rxResult ≠ SUCCESS
    · right; simp [runAccessor, h1, h2, Event.isTransport, List.filter]
    · cases hv : validator req t.rxPacket <;>
        · right; simp [runAccessor, h1, h2, hv, Event.isTransport, List.filter]

/-- Claim C10: for every accessor and every validator, if the transmit or the
receive transport call fails, the call returns FAILURE and the caller's
out-pointer value is left unchanged. -/
theorem transport_failure_leaves_output_unchanged {α : Type}
    (t : Transport) (req : List Nat)
    (validator : List Nat → List Nat → Except Err α) (ptrInit : α)
    (h : t.txResult ≠ SUCCESS ∨ t.rxResult ≠ SUCCESS) :
    (runAccessor t req validator ptrInit).status = FAILURE ∧
    (runAccessor t req validator ptrInit).finalOut = ptrInit := by
  by_cases h1 : t.txResult ≠ SUCCESS
  · simp [runAccessor, h1]
  · have h2 : t.rxResult ≠ SUCCESS := by
      rcases h with h | h
      · exact absurd h h1
      · exact h
    simp [runAccessor, h1, h2]

/-- Witness for the C10 theorem: a failing receive leaves the out value 5 in
place and returns FAILURE. -/
theorem transport_failure_witness :
    (get_minimum_frequency_bound_of_nistica_wss_module ⟨SUCCESS, FAILURE, []⟩ 5).status
      = FAILURE ∧
    (get_minimum_frequency_bound_of_nistica_wss_module ⟨SUCCESS, FAILURE, []⟩ 5).finalOut
      = 5 :=
  transport_failure_leaves_output_unchanged ⟨SUCCESS, FAILURE, []⟩
    get_minimum_frequency_bound_packet
    (validateAndExtract none (fun rx => scaleBy3125 (orCombine rx))) 5
    (Or.inr (by decide))

end NisticaWss
